import Mathlib

/-!
Shallow embedding of the `nest-basic` repository: an in-memory "cats"
resource behind a request pipeline of a roles guard, a validation pipe and
an HTTP-exception filter, plus a WebSocket gateway.

JavaScript runtime values that flow through the pipeline (request bodies
are untyped `any` values) are modelled by `JSValue`; JS truthiness,
`typeof` and property access are modelled by `truthy`, `jsTypeof` and
`getField`.
-/

/-- A JavaScript runtime value, as far as the embedded code inspects one:
`undefined`, `null`, booleans, numbers (only integers occur in this
repository), strings, plain objects (ordered field lists with unique keys,
looked up first-match) and arrays. -/
inductive JSValue : Type where
  | undefinedV : JSValue
  | nullv : JSValue
  | bool : Bool → JSValue
  | num : Int → JSValue
  | str : String → JSValue
  | obj : List (String × JSValue) → JSValue
  | arr : List JSValue → JSValue

/-- JS truthiness: `undefined`, `null`, `false`, `0` and `""` are falsy;
every object and array is truthy. -/
def truthy : JSValue → Bool
  | .undefinedV => false
  | .nullv => false
  | .bool b => b
  | .num n => n != 0
  | .str s => s != ""
  | .obj _ => true
  | .arr _ => true

/-- JS `typeof`: note `typeof null` is `"object"`, and arrays are
`"object"` as well. -/
def jsTypeof : JSValue → String
  | .undefinedV => "undefined"
  | .nullv => "object"
  | .bool _ => "boolean"
  | .num _ => "number"
  | .str _ => "string"
  | .obj _ => "object"
  | .arr _ => "object"

/-- JS property access `value.key` on the values the pipeline inspects:
field lookup on objects, `undefined` on any non-object (primitives have no
own `name`/`user`/`roles` properties). Every access in the embedded code
sits behind a truthiness or `&&` guard, so the `undefined`/`null` cases are
never reached by the code paths modelled here. -/
def getField (value : JSValue) (key : String) : JSValue :=
  match value with
  | .obj fields =>
    match fields.lookup key with
    | some v => v
    | none => .undefinedV
  | _ => .undefinedV

/-- A Nest `HttpException`: a status code together with a message. -/
structure HttpException : Type where
  status : Nat
  message : String
deriving DecidableEq

/-- `exception.getStatus()`. -/
def HttpException.getStatus (e : HttpException) : Nat := e.status

/-- `new BadRequestException(message)`: status 400 with the given message. -/
def BadRequestException (message : String) : HttpException :=
  { status := 400, message := message }

/-- The exception Nest raises when a guard denies activation:
`ForbiddenException`, status 403. -/
def ForbiddenException : HttpException :=
  { status := 403, message := "Forbidden" }

/-- `ValidationPipe.transform` from `src/validation/validation.pipe.ts`:

    transform(value: any, metadata: ArgumentMetadata) {
      if (!value || typeof value.name !== 'string') {
        throw new BadRequestException('Validation failed: name is required');
      }
      return value;
    }

The thrown exception is modelled as `Except.error`; `metadata` is unused
by the source body and omitted. -/
def ValidationPipe.transform (value : JSValue) : Except HttpException JSValue :=
  if !truthy value || jsTypeof (getField value "name") != "string" then
    Except.error (BadRequestException "Validation failed: name is required")
  else
    Except.ok value

/-- The authenticated principal an upstream middleware may have attached to
a request as `request.user`; its optional `roles` field is the caller's
role list (`none` models an absent field, read as `undefined`). -/
structure HttpUser : Type where
  roles : Option (List String)
deriving DecidableEq

/-- The HTTP request as the guard inspects it: `request.user` is `none`
when no principal was attached (so `request.user` reads as `undefined`). -/
structure HttpRequest : Type where
  user : Option HttpUser
deriving DecidableEq

/-- Handler metadata under the key `roles`, as set by `SetMetadata('roles',
roles)`: `none` when the route carries no such metadata. -/
structure RolesMetadata : Type where
  roles : Option (List String)
deriving DecidableEq

/-- `Roles` from `roles.decorator.ts`:
`export const Roles = (...roles: string[]) => SetMetadata('roles', roles)`:
it attaches the given role list to the route's metadata. -/
def Roles (roles : List String) : RolesMetadata :=
  { roles := some roles }

/-- The Nest `ExecutionContext` handed to a guard: it exposes both the
request (via `context.switchToHttp().getRequest()`) and the handler's
metadata (readable via `Reflector`, which this repository's guard never
instantiates). -/
structure ExecutionContext : Type where
  request : HttpRequest
  handlerRoles : RolesMetadata
deriving DecidableEq

/-- `RolesGuard.canActivate` from `src/roles/roles.guard.ts`:

    canActivate(context: ExecutionContext): boolean {
      const request = context.switchToHttp().getRequest();
      const user = request.user;
      return user && user.roles && user.roles.includes('admin');
    }

The JS `&&` chain returns its first falsy operand: when `user` is absent
(`undefined`, falsy) it short-circuits to `undefined`; an attached user
object is truthy, so `user.roles` is read next; when that field is absent
the chain again yields `undefined`; a roles array is always truthy (even
empty), so the chain ends with the boolean `roles.includes('admin')`. -/
def RolesGuard.canActivate (context : ExecutionContext) : JSValue :=
  match context.request.user with
  | none => JSValue.undefinedV
  | some user =>
    match user.roles with
    | none => JSValue.undefinedV
    | some roles => JSValue.bool (roles.contains "admin")

/-- The guard's boolean decision as the framework consumes it: the declared
return type is `boolean`, and Nest coerces the returned value by JS
truthiness, so a falsy `undefined` from the `&&` chain denies activation. -/
def RolesGuard.decision (context : ExecutionContext) : Bool :=
  truthy (RolesGuard.canActivate context)

/-- The outward HTTP response the filter or the router writes: transport
status plus serialized JSON body. -/
structure HttpResponseOut : Type where
  status : Nat
  body : JSValue

/-- `HttpExceptionFilter.catch` from `http-exception.filter.ts`:

    catch(exception: HttpException, host: ArgumentsHost) {
      const ctx = host.switchToHttp();
      const response = ctx.getResponse();
      const status = exception.getStatus();
      response.status(status).json({
        statusCode: status,
        message: exception.message,
      });
    }

Its effect on the transport response is modelled as the produced
`HttpResponseOut`. -/
def HttpExceptionFilter.catchException (exception : HttpException) : HttpResponseOut :=
  { status := exception.getStatus
    body := JSValue.obj
      [("statusCode", JSValue.num exception.getStatus),
       ("message", JSValue.str exception.message)] }

/-- `CatsService.cats` initializer from `cats.service.ts`:
`private cats = [{ name: 'Tom', age: 3 }]`. The store holds the raw JS
record objects that are pushed into it. -/
def CatsService.initialCats : List JSValue :=
  [JSValue.obj [("name", JSValue.str "Tom"), ("age", JSValue.num 3)]]

/-- `CatsService.getCats`: `return this.cats` — returns the store. -/
def CatsService.getCats (cats : List JSValue) : List JSValue := cats

/-- `CatsService.createCat`: `this.cats.push(cat); return cat` — appends
the record and returns it. The mutation of `this.cats` is modelled by
returning the new store alongside the returned record. -/
def CatsService.createCat (cats : List JSValue) (cat : JSValue) :
    JSValue × List JSValue :=
  (cat, cats ++ [cat])

/-- The operations `CatsService` exposes on its store. -/
inductive CatsOp : Type where
  | getCats : CatsOp
  | createCat : JSValue → CatsOp

/-- The store after one `CatsService` operation: `getCats` reads without
mutating, `createCat` appends. -/
def CatsService.applyOp (cats : List JSValue) : CatsOp → List JSValue
  | .getCats => CatsService.getCats cats
  | .createCat cat => (CatsService.createCat cats cat).2

/-- `CatsGateway.handleMessage` from `cats.gateway.ts`:
`return ` followed by the template literal `Received: ${data}`. -/
def CatsGateway.handleMessage (data : String) : String :=
  "Received: " ++ data

/-- Dispatch of `GET /cats` (`CatsController.getAll`): no guard, no pipe;
the handler returns `this.catsService.getCats()`, serialized as a JSON
array with Nest's default 200 status for `GET`. -/
def dispatchGetCats (cats : List JSValue) : HttpResponseOut × List JSValue :=
  ({ status := 200, body := JSValue.arr (CatsService.getCats cats) }, cats)

/-- Dispatch of `POST /cats` (`CatsController.create`), composing the
route's pipeline in declaration order: `RolesGuard` gates continuation
(denial raises `ForbiddenException`), then `ValidationPipe` transforms the
body (failure raises `BadRequestException`), then the handler runs
`createCat`; `HttpExceptionFilter` rewrites any raised `HttpException`
into the outward response; a successful `POST` gets Nest's default 201
status. Returns the outward response and the store after the request. -/
def dispatchPostCats (context : ExecutionContext) (body : JSValue)
    (cats : List JSValue) : HttpResponseOut × List JSValue :=
  if truthy (RolesGuard.canActivate context) then
    match ValidationPipe.transform body with
    | Except.ok value =>
      let (returned, cats') := CatsService.createCat cats value
      ({ status := 201, body := returned }, cats')
    | Except.error e => (HttpExceptionFilter.catchException e, cats)
  else
    (HttpExceptionFilter.catchException ForbiddenException, cats)

/-- Dispatch of `POST /cats/validation-pipe`
(`CatsController.createWithValidation`): the same `ValidationPipe` and the
same `createCat` handler as `POST /cats`, but with no guard on the route,
so no caller context is consulted. -/
def dispatchPostCatsValidationPipe (body : JSValue) (cats : List JSValue) :
    HttpResponseOut × List JSValue :=
  match ValidationPipe.transform body with
  | Except.ok value =>
    let (returned, cats') := CatsService.createCat cats value
    ({ status := 201, body := returned }, cats')
  | Except.error e => (HttpExceptionFilter.catchException e, cats)

/-- Whether the request carries an attached user whose role list contains
the literal string `"admin"` — the sole datum the claims say the guard's
decision is determined by. -/
def requestHasAdmin (request : HttpRequest) : Bool :=
  match request.user with
  | none => false
  | some user =>
    match user.roles with
    | none => false
    | some roles => roles.contains "admin"

/-- The malformed request body `{name: 123, age: "x"}`. -/
def invalidBody : JSValue :=
  JSValue.obj [("name", JSValue.num 123), ("age", JSValue.str "x")]

/-- The request body `{name: "Whiskers", age: 2}`. -/
def whiskersBody : JSValue :=
  JSValue.obj [("name", JSValue.str "Whiskers"), ("age", JSValue.num 2)]

/-- A concrete context whose caller holds the `admin` role, on the
`POST /cats` route (annotated `@Roles('admin')`). -/
def adminContext : ExecutionContext :=
  { request := { user := some { roles := some ["admin"] } }
    handlerRoles := Roles ["admin"] }

/-- The branch condition of `transform`, rewritten positively: it succeeds
exactly when the value is truthy and its `name` field is a string. -/
theorem ValidationPipe.transform_eq (v : JSValue) :
    ValidationPipe.transform v =
      if truthy v = true ∧ jsTypeof (getField v "name") = "string" then
        Except.ok v
      else
        Except.error (BadRequestException "Validation failed: name is required") := by
  unfold ValidationPipe.transform
  by_cases h : truthy v = true ∧ jsTypeof (getField v "name") = "string"
  · obtain ⟨h1, h2⟩ := h
    simp [h1, h2]
  · rw [if_neg h]
    rcases not_and_or.mp h with h1 | h2
    · simp [Bool.not_eq_true] at h1
      simp [h1]
    · have hb : (jsTypeof (getField v "name") != "string") = true := by
        simpa [bne_iff_ne] using h2
      simp [hb]

/-- C1: `ValidationPipe.transform` succeeds and returns its input value
unchanged if and only if the value is truthy (non-null/defined) with a
string-typed `name` field; every other input raises a `BadRequestException`
(status 400) whose message is exactly "Validation failed: name is
required"; and the accept/reject decision depends only on the value's
truthiness and its `name` field, so no other field is examined. -/
theorem validationPipe_transform_spec (v : JSValue) :
    (ValidationPipe.transform v = Except.ok v ↔
      truthy v = true ∧ jsTypeof (getField v "name") = "string")
  ∧ (ValidationPipe.transform v ≠ Except.ok v →
      ValidationPipe.transform v =
        Except.error { status := 400, message := "Validation failed: name is required" })
  ∧ (∀ w : JSValue, truthy w = truthy v → getField w "name" = getField v "name" →
      (ValidationPipe.transform w).isOk = (ValidationPipe.transform v).isOk) := by
  refine ⟨?_, ?_, ?_⟩
  · rw [ValidationPipe.transform_eq]
    by_cases h : truthy v = true ∧ jsTypeof (getField v "name") = "string"
    · simp [h]
    · simp [h]
  · rw [ValidationPipe.transform_eq]
    by_cases h : truthy v = true ∧ jsTypeof (getField v "name") = "string"
    · simp [h]
    · simp [h, BadRequestException]
  · intro w hw hn
    rw [ValidationPipe.transform_eq, ValidationPipe.transform_eq, hw, hn]
    by_cases h : truthy v = true ∧ jsTypeof (getField v "name") = "string" <;>
      simp [h, Except.isOk, Except.toBool]

/-- C1 witness: a truthy object with string `name` is accepted unchanged. -/
theorem validationPipe_transform_spec_witness :
    ValidationPipe.transform (JSValue.obj [("name", JSValue.str "Tom")]) =
      Except.ok (JSValue.obj [("name", JSValue.str "Tom")]) :=
  (validationPipe_transform_spec (JSValue.obj [("name", JSValue.str "Tom")])).1.mpr
    ⟨rfl, rfl⟩

/-- C2: the guard's activation decision is true exactly when the context
carries a user whose role list contains "admin", and false for every other
context, including those where the user or the roles field is absent. -/
theorem rolesGuard_canActivate_spec (context : ExecutionContext) :
    (RolesGuard.decision context = true ↔
      ∃ user roles, context.request.user = some user ∧
        user.roles = some roles ∧ "admin" ∈ roles)
  ∧ (RolesGuard.decision context = false ↔
      ¬ ∃ user roles, context.request.user = some user ∧
        user.roles = some roles ∧ "admin" ∈ roles) := by
  have hmain : RolesGuard.decision context = true ↔
      ∃ user roles, context.request.user = some user ∧
        user.roles = some roles ∧ "admin" ∈ roles := by
    unfold RolesGuard.decision RolesGuard.canActivate
    rcases hu : context.request.user with _ | user
    · simp [truthy]
    · rcases hr : user.roles with _ | roles
      · simp [truthy, hr]
      · simp [truthy, hr]
  refine ⟨hmain, ?_⟩
  rw [← hmain]
  cases RolesGuard.decision context <;> simp

/-- C3: `POST /cats` with body `{name: 123, age: "x"}` from an authorized
caller returns status 400 with the validation message, and the store is
unchanged by the failed request (no append happens); the store is in fact
unchanged for every caller, authorized or not. -/
theorem postCats_invalid_body_spec (context : ExecutionContext)
    (cats : List JSValue) (h : RolesGuard.decision context = true) :
    (dispatchPostCats context invalidBody cats).2 = cats
  ∧ (dispatchPostCats context invalidBody cats).1.status = 400
  ∧ (dispatchPostCats context invalidBody cats).1.body =
      JSValue.obj [("statusCode", JSValue.num 400),
                   ("message", JSValue.str "Validation failed: name is required")]
  ∧ (∀ context2 : ExecutionContext,
      (dispatchPostCats context2 invalidBody cats).2 = cats) := by
  have h' : truthy (RolesGuard.canActivate context) = true := h
  have htr : ValidationPipe.transform invalidBody =
      Except.error (BadRequestException "Validation failed: name is required") := rfl
  refine ⟨?_, ?_, ?_, ?_⟩
  · simp [dispatchPostCats, h', htr]
  · simp [dispatchPostCats, h', htr, HttpExceptionFilter.catchException,
          HttpException.getStatus, BadRequestException]
  · simp [dispatchPostCats, h', htr, HttpExceptionFilter.catchException,
          HttpException.getStatus, BadRequestException]
  · intro context2
    by_cases h2 : truthy (RolesGuard.canActivate context2) = true
    · simp [dispatchPostCats, h2, htr]
    · simp [dispatchPostCats, h2]

/-- C3 witness: an admin caller posting the malformed body leaves the
initial store unchanged and gets status 400. -/
theorem postCats_invalid_body_spec_witness :
    (dispatchPostCats adminContext invalidBody CatsService.initialCats).2 =
      CatsService.initialCats
  ∧ (dispatchPostCats adminContext invalidBody CatsService.initialCats).1.status = 400 :=
  ⟨(postCats_invalid_body_spec adminContext CatsService.initialCats rfl).1,
   (postCats_invalid_body_spec adminContext CatsService.initialCats rfl).2.1⟩

/-- C4: for every prior store, `POST /cats` with body
`{name: "Whiskers", age: 2}` from a caller whose roles contain "admin"
responds 201 and appends the record, and a subsequent `GET /cats` returns
the previous sequence with that record as its last element. -/
theorem postCats_create_admin_spec (context : ExecutionContext)
    (cats : List JSValue) (h : RolesGuard.decision context = true) :
    (dispatchPostCats context whiskersBody cats).1.status = 201
  ∧ (dispatchPostCats context whiskersBody cats).2 = cats ++ [whiskersBody]
  ∧ (dispatchGetCats (dispatchPostCats context whiskersBody cats).2).1.body =
      JSValue.arr (cats ++ [whiskersBody])
  ∧ (dispatchGetCats (dispatchPostCats context whiskersBody cats).2).1.status = 200 := by
  have h' : truthy (RolesGuard.canActivate context) = true := h
  have htr : ValidationPipe.transform whiskersBody = Except.ok whiskersBody := rfl
  refine ⟨?_, ?_, ?_, ?_⟩ <;>
    simp [dispatchPostCats, dispatchGetCats, h', htr, CatsService.createCat,
          CatsService.getCats]

/-- C4 witness: the admin caller's post appends Whiskers to the initial
store and responds 201. -/
theorem postCats_create_admin_spec_witness :
    (dispatchPostCats adminContext whiskersBody CatsService.initialCats).1.status = 201
  ∧ (dispatchPostCats adminContext whiskersBody CatsService.initialCats).2 =
      CatsService.initialCats ++ [whiskersBody] :=
  ⟨(postCats_create_admin_spec adminContext CatsService.initialCats rfl).1,
   (postCats_create_admin_spec adminContext CatsService.initialCats rfl).2.1⟩

/-- C5: every store operation preserves the prior records unchanged and in
order — the store before `getCats` or `createCat` is a prefix of the store
after it; nothing is updated or deleted. -/
theorem catsService_append_only (cats : List JSValue) (op : CatsOp) :
    cats <+: CatsService.applyOp cats op := by
  cases op with
  | getCats => exact ⟨[], by simp [CatsService.applyOp, CatsService.getCats]⟩
  | createCat cat => exact ⟨[cat], rfl⟩

/-- C6: for every body and store, `POST /cats/validation-pipe` — which
consults no caller context — produces exactly the response and store change
that `POST /cats` produces for a caller passing the admin gate. -/
theorem postCatsValidationPipe_equiv (context : ExecutionContext)
    (body : JSValue) (cats : List JSValue)
    (h : RolesGuard.decision context = true) :
    dispatchPostCatsValidationPipe body cats = dispatchPostCats context body cats := by
  have h' : truthy (RolesGuard.canActivate context) = true := h
  simp [dispatchPostCats, dispatchPostCatsValidationPipe, h']

/-- C6 witness: with a null body (rejected by the pipe) the ungated route
and the gated route agree for the admin caller. -/
theorem postCatsValidationPipe_equiv_witness :
    dispatchPostCatsValidationPipe JSValue.nullv CatsService.initialCats =
      dispatchPostCats adminContext JSValue.nullv CatsService.initialCats :=
  postCatsValidationPipe_equiv adminContext JSValue.nullv CatsService.initialCats rfl

/-- C7: for every HTTP exception with status `s` and message `m`, the
filter sets the transport status to `s` and serializes exactly
`{ statusCode: s, message: m }` as the response body. -/
theorem httpExceptionFilter_catch_spec (s : Nat) (m : String) :
    HttpExceptionFilter.catchException { status := s, message := m } =
      { status := s,
        body := JSValue.obj
          [("statusCode", JSValue.num s), ("message", JSValue.str m)] } := rfl

/-- C8: the WebSocket `message` handler returns exactly
`"Received: "` followed by the payload; in particular `"ping"` yields
`"Received: ping"`. -/
theorem catsGateway_handleMessage_spec (p : String) :
    CatsGateway.handleMessage p = "Received: " ++ p
  ∧ CatsGateway.handleMessage "ping" = "Received: ping" :=
  ⟨rfl, rfl⟩

/-- C9: at startup the store is not empty: it holds exactly the one record
`{name: "Tom", age: 3}`, so the first `GET /cats` returns a one-element
sequence. -/
theorem catsService_initial_store_spec :
    CatsService.initialCats =
      [JSValue.obj [("name", JSValue.str "Tom"), ("age", JSValue.num 3)]]
  ∧ CatsService.initialCats ≠ []
  ∧ (dispatchGetCats CatsService.initialCats).1.body =
      JSValue.arr [JSValue.obj [("name", JSValue.str "Tom"), ("age", JSValue.num 3)]]
  ∧ (CatsService.getCats CatsService.initialCats).length = 1 := by
  refine ⟨rfl, ?_, rfl, rfl⟩
  simp [CatsService.initialCats]

/-- C10: the guard's result never depends on the roles attached to the
route by the `@Roles(...)` decorator — the same request yields the same
returned value and the same decision under any two metadata annotations
(decorated or bare), and the decision is determined solely by whether the
request's user role list contains "admin". -/
theorem rolesGuard_metadata_independence (request : HttpRequest)
    (m1 m2 : RolesMetadata) (declared : List String) :
    RolesGuard.canActivate { request := request, handlerRoles := m1 } =
      RolesGuard.canActivate { request := request, handlerRoles := m2 }
  ∧ RolesGuard.canActivate { request := request, handlerRoles := Roles declared } =
      RolesGuard.canActivate { request := request, handlerRoles := { roles := none } }
  ∧ RolesGuard.decision { request := request, handlerRoles := m1 } =
      requestHasAdmin request := by
  refine ⟨rfl, rfl, ?_⟩
  unfold RolesGuard.decision RolesGuard.canActivate requestHasAdmin
  rcases hu : request.user with _ | user
  · simp [hu, truthy]
  · rcases hr : user.roles with _ | roles
    · simp [hu, hr, truthy]
    · simp [hu, hr, truthy]
